import Mathlib

/-!
Verification development for the TradingView alert bridge
(`bridge/backend/app/main.py`, `database.py`, `models.py`).

The alert-to-order pipeline (`process_tradingview_alert`), the exchange
client cache (`get_exchange_client`) and the history store
(`save_alert_history`) are embedded shallowly:

* Python floats are modelled as rationals (ℚ); Python truthiness of an
  optional float (`if config.get("quantity"):`) is `truthyQ`.
* A raised Python exception is a `PyErr`: `HTTPException(status, detail)`
  or a generic exception carrying its message.  Fallible code returns
  `Except PyErr`.
* External collaborators (configuration store, credential vault, ccxt
  client construction, exchange balance/ticker/order calls) are oracle
  parameters: arbitrary functions supplied to the pipeline, so theorems
  quantify over every possible behaviour of the collaborators.
* Redis `SET` on key `alert:{user_id}:{timestamp}` is modelled as a
  key-value store keyed by the pair (user_id, timestamp); `GET` returns
  the most recent write for a key.
* Module-level mutable state (the client cache) is threaded explicitly
  as `GatewayState`; the pipeline output also carries call counters that
  record, per invocation, how often each external operation was invoked
  at the exact program points where the source invokes it.
-/

deriving instance DecidableEq for Except

namespace Bridge

/-- A raised Python exception: either a FastAPI `HTTPException` (status
code and detail) or a generic exception with its message string. -/
inductive PyErr where
  | http : Nat → String → PyErr
  | exc : String → PyErr
deriving DecidableEq, Repr

/-- Python truthiness of an optional float: `None` and `0.0` are falsy,
every other value is truthy. -/
def truthyQ : Option ℚ → Bool
  | none => false
  | some v => v != 0

/-- The relevant fields of a stored alert configuration, as read by the
pipeline (`config["exchange"]`, `config["symbol"]`, `config["order_type"]`,
`config["position_side"]`, `config.get("quantity")`,
`config.get("quantity_percentage")`, `config.get("price")`).  Fields the
pipeline never reads (name, stop_loss, take_profit, description) are
omitted.  `order_type` and `position_side` are strings, as in the stored
JSON dict the pipeline receives from `get_alert_config`. -/
structure AlertConfig where
  exchange : String
  symbol : String
  order_type : String
  position_side : String
  quantity : Option ℚ
  quantity_percentage : Option ℚ
  price : Option ℚ
deriving DecidableEq, Repr

/-- The fields of `TradingViewAlertModel` read by the pipeline:
`config_name`, `user_id` and the optional `price`. -/
structure TradingViewAlert where
  config_name : String
  user_id : String
  price : Option ℚ
deriving DecidableEq, Repr

/-- The keyword arguments of one `exchange.create_order(...)` call:
symbol, ccxt order type string, side, amount, optional price and the
optional `params["stopPrice"]`. -/
structure OrderReq where
  symbol : String
  otype : String
  side : String
  amount : ℚ
  price : Option ℚ
  stopPrice : Option ℚ
deriving DecidableEq, Repr

/-- An exchange order receipt (the dict returned by `create_order`);
`id` is `some` exactly when the dict contains an "id" key. -/
structure Receipt where
  id : Option String
deriving DecidableEq, Repr

/-- One exchange client handle's observable behaviour: `fetch_balance`
returns the per-currency free amounts (a currency is absent from the
balance response iff it is absent from the list), `fetch_ticker` returns
the ticker's last price, `create_order` returns a receipt.  Each may
instead raise (modelled as `Except.error` with the exception message). -/
structure ExchangeClient where
  fetch_balance : Except String (List (String × ℚ))
  fetch_ticker : String → Except String ℚ
  create_order : OrderReq → Except String Receipt

/-- The `OrderResultModel` pydantic model. Timestamps are abstract strings
(the isoformat of the `datetime.now()` reading). -/
structure OrderResult where
  success : Bool
  order_id : Option String
  message : Option String
  details : Option Receipt
  timestamp : String
deriving DecidableEq, Repr

/-- A history record as written by `save_alert_history`: the success path
writes config_name, symbol, side, quantity, price, timestamp, success,
order_id and details; the failure path writes only config_name,
timestamp, success and message.  Keys absent from the written dict are
`none`. -/
structure HistoryRecord where
  config_name : String
  symbol : Option String
  side : Option String
  quantity : Option ℚ
  price : Option ℚ
  timestamp : String
  success : Bool
  order_id : Option String
  message : Option String
  details : Option Receipt
deriving DecidableEq, Repr

/-- The history store: Redis keys `alert:{user_id}:{timestamp}`, modelled
as a list of ((user_id, timestamp), record) with most recent write
first. -/
abbrev HistoryStore : Type := List ((String × String) × HistoryRecord)

/-- Redis `SET alert:{user_id}:{timestamp}` as performed by
`save_alert_history`. -/
def saveHist (h : HistoryStore) (u t : String) (r : HistoryRecord) : HistoryStore :=
  ((u, t), r) :: h

/-- Redis `GET` for a history key: the most recent write wins. -/
def lookupHist (h : HistoryStore) (u t : String) : Option HistoryRecord :=
  (List.find? (fun p => p.1.1 == u && p.1.2 == t) h).map (fun p => p.2)

/-- A decrypted API key pair as returned by the credential vault
(`get_exchange_api_key`). -/
structure Creds where
  api_key : String
  api_secret : String
deriving DecidableEq, Repr

/-- The module-level mutable state of `main.py` relevant to
`get_exchange_client`: the `exchange_clients` cache (client_key to client
handle; handles are numbered by creation), plus instrumentation counters:
how many clients were ever constructed and how many times the credential
vault was consulted. -/
structure GatewayState where
  cache : List (String × Nat)
  nextId : Nat
  constructions : Nat
  vaultCalls : Nat
deriving DecidableEq, Repr

/-- Lookup in the `exchange_clients` dict. -/
def lookupCache (c : List (String × Nat)) (k : String) : Option Nat :=
  (List.find? (fun p => p.1 == k) c).map (fun p => p.2)

/-- Shallow embedding of `get_exchange_client(user_id, exchange_name)`
(main.py lines 45-70).  `vault` is `get_exchange_api_key` (returning
`none` for an empty dict), `constructErr` models ccxt client
construction: `none` means `getattr` plus construction succeed, `some m`
means an exception with message m was raised (caught and re-raised as
HTTP 500). -/
def getExchangeClient (vault : String → String → Option Creds)
    (constructErr : String → Creds → Option String)
    (st : GatewayState) (uid ex : String) : Except PyErr (Nat × GatewayState) :=
  let ckey := uid ++ ":" ++ ex
  match lookupCache st.cache ckey with
  | some c => .ok (c, st)
  | none =>
    match vault uid ex with
    | none => .error (.http 404 ("API keys not found for exchange " ++ ex))
    | some creds =>
      match constructErr ex creds with
      | some m => .error (.http 500 ("Error creating exchange client: " ++ m))
      | none =>
        .ok (st.nextId,
          { cache := (ckey, st.nextId) :: st.cache
            nextId := st.nextId + 1
            constructions := st.constructions + 1
            vaultCalls := st.vaultCalls + 1 })

/-- Split a character list at every "/" occurrence, as Python's
`str.split("/")` does (structurally recursive so that concrete instances
reduce). -/
def splitSlash : List Char → List (List Char)
  | [] => [[]]
  | c :: rest =>
    if c = '/' then [] :: splitSlash rest
    else
      match splitSlash rest with
      | [] => [[c]]
      | h :: t => (c :: h) :: t

/-- The quote currency of a symbol: `symbol.split("/")[1]` (main.py line
184); `none` models the `IndexError` when the symbol has no "/". -/
def quoteCurrency (s : String) : Option String :=
  match splitSlash s.data with
  | _ :: q :: _ => some (String.mk q)
  | _ => none

/-- Lookup of a currency's free amount in a fetched balance
(`base_currency not in balance` / `balance[base_currency]["free"]`). -/
def lookupBal (bal : List (String × ℚ)) (c : String) : Option ℚ :=
  (List.find? (fun p => p.1 == c) bal).map (fun p => p.2)

/-- Outcome of the quantity-determination block (main.py lines 177-195):
the resolved quantity or the raised exception, plus how many
`fetch_balance` and `fetch_ticker` calls the block performed. -/
structure ResolveOut where
  result : Except PyErr ℚ
  balanceCalls : Nat
  tickerCalls : Nat
deriving DecidableEq, Repr

/-- Tail of the percentage path once the free balance, percentage and
current price are known (main.py lines 190-195): Python raises
ZeroDivisionError when the current price is 0; then the pipeline's
`if not quantity:` check rejects a (falsy) zero quantity with HTTP 400. -/
def finishPct (free p cp : ℚ) (tc : Nat) : ResolveOut :=
  if cp = 0 then ⟨.error (.exc "float division by zero"), 1, tc⟩
  else
    let q := free * p / 100 / cp
    if q = 0 then ⟨.error (.http 400 "Could not determine order quantity"), 1, tc⟩
    else ⟨.ok q, 1, tc⟩

/-- Shallow embedding of the quantity-determination block of
`process_tradingview_alert` (main.py lines 177-195), including the final
`if not quantity:` check.  Mirrors the source exactly: Python truthiness
guards both `config.get("quantity")` and `config.get("quantity_percentage")`;
the balance is fetched before the symbol is split; the ticker is consulted
only when the alert price is falsy. -/
def resolveQuantity (cfg : AlertConfig) (ap : Option ℚ) (client : ExchangeClient) : ResolveOut :=
  if truthyQ cfg.quantity then
    ⟨.ok (cfg.quantity.getD 0), 0, 0⟩
  else if truthyQ cfg.quantity_percentage then
    match client.fetch_balance with
    | .error m => ⟨.error (.exc m), 1, 0⟩
    | .ok bal =>
      match quoteCurrency cfg.symbol with
      | none => ⟨.error (.exc "list index out of range"), 1, 0⟩
      | some qc =>
        match lookupBal bal qc with
        | none => ⟨.error (.http 400 ("No balance found for " ++ qc)), 1, 0⟩
        | some free =>
          if truthyQ ap then
            finishPct free (cfg.quantity_percentage.getD 0) (ap.getD 0) 0
          else
            match client.fetch_ticker cfg.symbol with
            | .error m => ⟨.error (.exc m), 1, 1⟩
            | .ok last => finishPct free (cfg.quantity_percentage.getD 0) last 1
  else
    ⟨.error (.http 400 "Could not determine order quantity"), 0, 0⟩

/-- Outcome of the order-execution block (main.py lines 198-235):
`result` is the local variable `order_result` (still `none` when the
order type matched no branch), or the raised exception; `attempts` lists
every `create_order` call made, with its arguments. -/
structure DispatchOut where
  result : Except PyErr (Option Receipt)
  attempts : List OrderReq

/-- Price resolution for limit/stop orders (main.py lines 208, 220):
`price = alert.price if alert.price else config.get("price")`. -/
def resolvedPrice (ap cp : Option ℚ) : Option ℚ :=
  if truthyQ ap then ap else cp

/-- One `order_result = exchange.create_order(...)` statement: the
receipt on success, the raised (generic) exception on failure; either
way the call was attempted. -/
def tryCreate (client : ExchangeClient) (req : OrderReq) : DispatchOut :=
  match client.create_order req with
  | .ok r => ⟨.ok (some r), [req]⟩
  | .error m => ⟨.error (.exc m), [req]⟩

/-- Shallow embedding of the order-execution block of
`process_tradingview_alert` (main.py lines 198-235).  The if/elif chain
on `order_type` is mirrored exactly, including the fall-through that
leaves `order_result = None` for unrecognized order types. -/
def dispatchOrder (client : ExchangeClient) (symbol otype sd : String)
    (quantity : ℚ) (ap cp : Option ℚ) : DispatchOut :=
  if otype = "market" then
    tryCreate client ⟨symbol, "market", sd, quantity, none, none⟩
  else if otype = "limit" then
    let pr := resolvedPrice ap cp
    if truthyQ pr then
      tryCreate client ⟨symbol, "limit", sd, quantity, pr, none⟩
    else ⟨.error (.http 400 "Price required for limit orders"), []⟩
  else if otype = "stop_loss" ∨ otype = "take_profit" then
    let pr := resolvedPrice ap cp
    if truthyQ pr then
      tryCreate client ⟨symbol, "stop", sd, quantity, pr, pr⟩
    else ⟨.error (.http 400 ("Price required for " ++ otype ++ " orders")), []⟩
  else ⟨.ok none, []⟩

/-- The minimal failure history record written by the generic exception
handler (main.py lines 271-277). -/
def failureRecord (cname now msg : String) : HistoryRecord :=
  ⟨cname, none, none, none, none, now, false, none, some msg, none⟩

/-- Outcome of the body of the `try:` block of
`process_tradingview_alert`, before the exception handlers at the
boundary: the returned `OrderResult` or the raised exception, and the
resulting history store, gateway state and per-invocation call record. -/
structure InnerOut where
  res : Except PyErr OrderResult
  hist : HistoryStore
  gw : GatewayState
  balanceCalls : Nat
  tickerCalls : Nat
  placedOrders : List OrderReq

/-- Shallow embedding of the body of the `try:` block of
`process_tradingview_alert` (main.py lines 161-260): config lookup,
client acquisition, side derivation, quantity resolution, order
execution, success result assembly and success history write.
`configStore` is `get_alert_config` (with `none` for an empty dict),
`envOf` gives each client handle its exchange-side behaviour, `now` is
the `datetime.now()` reading of this invocation. -/
def processInner (configStore : String → String → Option AlertConfig)
    (vault : String → String → Option Creds)
    (constructErr : String → Creds → Option String)
    (envOf : Nat → ExchangeClient)
    (gw : GatewayState) (hist : HistoryStore) (now : String)
    (alert : TradingViewAlert) : InnerOut :=
  match configStore alert.user_id alert.config_name with
  | none =>
    ⟨.error (.http 404 ("Configuration \x27" ++ alert.config_name ++ "\x27 not found")),
      hist, gw, 0, 0, []⟩
  | some cfg =>
    match getExchangeClient vault constructErr gw alert.user_id cfg.exchange with
    | .error e => ⟨.error e, hist, gw, 0, 0, []⟩
    | .ok (cl, gw1) =>
      let client := envOf cl
      let sd := if cfg.position_side = "long" then "buy" else "sell"
      let rq := resolveQuantity cfg alert.price client
      match rq.result with
      | .error e => ⟨.error e, hist, gw1, rq.balanceCalls, rq.tickerCalls, []⟩
      | .ok q =>
        let dp := dispatchOrder client cfg.symbol cfg.order_type sd q alert.price cfg.price
        match dp.result with
        | .error e => ⟨.error e, hist, gw1, rq.balanceCalls, rq.tickerCalls, dp.attempts⟩
        | .ok orcpt =>
          let oid := match orcpt with
            | some r => r.id
            | none => none
          let result : OrderResult := ⟨true, oid, some "Order executed successfully", orcpt, now⟩
          let hrec : HistoryRecord :=
            ⟨alert.config_name, some cfg.symbol, some sd, some q, alert.price,
              now, true, oid, none, orcpt⟩
          ⟨.ok result, saveHist hist alert.user_id now hrec, gw1,
            rq.balanceCalls, rq.tickerCalls, dp.attempts⟩

/-- Observable outcome of one webhook invocation: `response` is either
the `OrderResultModel` returned to the caller, or the transport-level
HTTP error (status, detail) produced by a re-raised `HTTPException`. -/
structure ProcessOut where
  response : Except (Nat × String) OrderResult
  history : HistoryStore
  gateway : GatewayState
  balanceCalls : Nat
  tickerCalls : Nat
  placedOrders : List OrderReq

/-- Shallow embedding of `process_tradingview_alert` (main.py lines
159-279): the `try:` body, followed by the boundary handlers
`except HTTPException: raise` (the HTTP error propagates to the caller,
nothing more is written) and `except Exception as e:` (a failure
`OrderResult` is returned and a minimal failure history record is
written). -/
def process (configStore : String → String → Option AlertConfig)
    (vault : String → String → Option Creds)
    (constructErr : String → Creds → Option String)
    (envOf : Nat → ExchangeClient)
    (gw : GatewayState) (hist : HistoryStore) (now : String)
    (alert : TradingViewAlert) : ProcessOut :=
  let io := processInner configStore vault constructErr envOf gw hist now alert
  match io.res with
  | .ok r => ⟨.ok r, io.hist, io.gw, io.balanceCalls, io.tickerCalls, io.placedOrders⟩
  | .error (.http s d) =>
    ⟨.error (s, d), io.hist, io.gw, io.balanceCalls, io.tickerCalls, io.placedOrders⟩
  | .error (.exc m) =>
    let r : OrderResult := ⟨false, none, some ("Error executing order: " ++ m), none, now⟩
    ⟨.ok r,
      saveHist io.hist alert.user_id now
        (failureRecord alert.config_name now ("Error executing order: " ++ m)),
      io.gw, io.balanceCalls, io.tickerCalls, io.placedOrders⟩

/-! Concrete fixtures used by witnesses and counterexamples. -/

/-- An exchange client whose balance holds 1000 USDT free, whose ticker
always reports a last price of 50000, and whose orders succeed. -/
def stdClient : ExchangeClient :=
  ⟨.ok [("USDT", 1000)], fun _ => .ok 50000, fun _ => .ok ⟨some "oid-1"⟩⟩

/-- An exchange client whose `create_order` raises a generic (non-HTTP)
exception. -/
def errClient : ExchangeClient :=
  ⟨.ok [("USDT", 1000)], fun _ => .ok 50000, fun _ => .error "network down"⟩

/-- A market-order configuration with fixed quantity 2. -/
def stdCfg : AlertConfig := ⟨"binance", "BTC/USDT", "market", "long", some 2, none, none⟩

/-- A configuration sized by percentage: 10 percent of the free quote
balance. -/
def pctCfg : AlertConfig := ⟨"binance", "BTC/USDT", "market", "long", none, some 10, none⟩

/-- A configuration with a negative fixed quantity (accepted by the
pydantic model, which does not constrain `quantity`). -/
def negCfg : AlertConfig := ⟨"binance", "BTC/USDT", "market", "long", some (-5), none, none⟩

/-- A configuration whose order_type is outside the recognized set. -/
def c3Cfg : AlertConfig := ⟨"binance", "BTC/USDT", "trailing_stop", "long", some 2, none, none⟩

/-- A limit-order configuration with a config-stored price of 100. -/
def limitCfg : AlertConfig := ⟨"binance", "BTC/USDT", "limit", "long", some 2, none, some 100⟩

/-- A credential vault holding a key pair for every (user, exchange). -/
def stdVault : String → String → Option Creds := fun _ _ => some ⟨"k", "s"⟩

/-- Client construction that always succeeds. -/
def noConstructErr : String → Creds → Option String := fun _ _ => none

/-- The initial gateway state: empty cache, no constructions. -/
def gw0 : GatewayState := ⟨[], 0, 0, 0⟩

/-- An incoming alert for configuration "c1" of user "u1", with no
alert-supplied price. -/
def alert0 : TradingViewAlert := ⟨"c1", "u1", none⟩

/-- A configuration with neither quantity nor quantity_percentage set. -/
def emptyQtyCfg : AlertConfig := ⟨"binance", "BTC/USDT", "market", "long", none, none, none⟩

/-! Spec-side characterizations used to state claim C7 ("fails exactly
when neither the fixed quantity nor a resolvable percentage yields a
nonzero number").  These two definitions follow the specification's
words, for comparison with `resolveQuantity`, which is translated from
the source. -/

/-- What the fixed-quantity path yields: the configured quantity when it
is set and nonzero (Python-truthy), nothing otherwise. -/
def specFixedQuantity (cfg : AlertConfig) : Option ℚ :=
  match cfg.quantity with
  | some q => if q = 0 then none else some q
  | none => none

/-- What the percentage path would yield: `none` when the percentage is
unset or falsy, or the balance fetch fails, or the symbol has no quote
component, or the quote currency is absent from the balance, or the
needed price is unavailable or zero; otherwise the computed quantity
(available * percentage / 100) / price, where the price is the
Python-truthy alert price if any, else the ticker's last price. -/
def specPctQuantity (cfg : AlertConfig) (ap : Option ℚ) (client : ExchangeClient) : Option ℚ :=
  match cfg.quantity_percentage with
  | none => none
  | some p =>
    if p = 0 then none
    else
      match client.fetch_balance with
      | .error _ => none
      | .ok bal =>
        match quoteCurrency cfg.symbol with
        | none => none
        | some qc =>
          match lookupBal bal qc with
          | none => none
          | some free =>
            match (if truthyQ ap then Except.ok (ap.getD 0) else client.fetch_ticker cfg.symbol) with
            | .error _ => none
            | .ok cp => if cp = 0 then none else some (free * p / 100 / cp)

/-- The `create_order` request a market-order config produces: side is
"buy" for position_side "long", else "sell"; no price, no stopPrice. -/
def marketReq (cfg : AlertConfig) (q : ℚ) : OrderReq :=
  ⟨cfg.symbol, "market", if cfg.position_side = "long" then "buy" else "sell", q, none, none⟩

/-- The success history record written for one executed market order
with receipt `rcpt` at timestamp `t`. -/
def successRec (alert : TradingViewAlert) (cfg : AlertConfig) (q : ℚ)
    (rcpt : Receipt) (t : String) : HistoryRecord :=
  ⟨alert.config_name, some cfg.symbol,
    some (if cfg.position_side = "long" then "buy" else "sell"),
    some q, alert.price, t, true, rcpt.id, none, some rcpt⟩

/-! Helper lemmas shared by several claims. -/

/-- After a successful `get_exchange_client` call, a second call with the
same arguments from the resulting state returns the same client handle
and leaves the state unchanged: the key is now cached. -/
theorem getExchangeClient_stable (vault : String → String → Option Creds)
    (cerr : String → Creds → Option String) (st : GatewayState) (uid ex : String)
    (cl : Nat) (st1 : GatewayState)
    (h : getExchangeClient vault cerr st uid ex = .ok (cl, st1)) :
    getExchangeClient vault cerr st1 uid ex = .ok (cl, st1) := by
  simp only [getExchangeClient] at h ⊢
  split at h
  next c hc =>
    simp only [Except.ok.injEq, Prod.mk.injEq] at h
    obtain ⟨h1, h2⟩ := h
    subst h1; subst h2
    rw [hc]
  next hc =>
    split at h
    next => simp at h
    next creds hv =>
      split at h
      next => simp at h
      next hce =>
        simp only [Except.ok.injEq, Prod.mk.injEq] at h
        obtain ⟨h1, h2⟩ := h
        subst h1; subst h2
        have hl : lookupCache ((uid ++ ":" ++ ex, st.nextId) :: st.cache)
            (uid ++ ":" ++ ex) = some st.nextId := by
          simp [lookupCache, List.find?]
        rw [hl]

/-- The percentage tail performs exactly one balance call in every
branch. -/
theorem finishPct_balanceCalls (f p c : ℚ) (t : Nat) : (finishPct f p c t).balanceCalls = 1 := by
  by_cases h : c = 0
  · simp [finishPct, h]
  · by_cases h2 : f * p / 100 / c = 0 <;> simp [finishPct, h, h2]

/-- Unfolding of `resolveQuantity` on the percentage path: when the fixed
quantity is falsy and the percentage is set and nonzero, resolution
proceeds through balance fetch, quote-currency extraction, balance
lookup and price determination. -/
theorem resolveQuantity_pctBranch (cfg : AlertConfig) (ap : Option ℚ)
    (client : ExchangeClient) (p : ℚ)
    (h1 : truthyQ cfg.quantity = false)
    (hpct : cfg.quantity_percentage = some p) (hp : p ≠ 0) :
    resolveQuantity cfg ap client =
      match client.fetch_balance with
      | .error m => ⟨.error (.exc m), 1, 0⟩
      | .ok bal =>
        match quoteCurrency cfg.symbol with
        | none => ⟨.error (.exc "list index out of range"), 1, 0⟩
        | some qc =>
          match lookupBal bal qc with
          | none => ⟨.error (.http 400 ("No balance found for " ++ qc)), 1, 0⟩
          | some free =>
            if truthyQ ap then finishPct free p (ap.getD 0) 0
            else
              match client.fetch_ticker cfg.symbol with
              | .error m => ⟨.error (.exc m), 1, 1⟩
              | .ok last => finishPct free p last 1 := by
  have h2 : truthyQ cfg.quantity_percentage = true := by
    rw [hpct]; simp [truthyQ, hp]
  have hg : cfg.quantity_percentage.getD 0 = p := by rw [hpct]; rfl
  simp [resolveQuantity, h1, h2, hg]

/-- Whatever the exchange answers, a `tryCreate` is one attempted
`create_order` call with the given request. -/
theorem tryCreate_attempts (client : ExchangeClient) (req : OrderReq) :
    (tryCreate client req).attempts = [req] := by
  unfold tryCreate
  cases client.create_order req with
  | error m => rfl
  | ok r => rfl

/-! Claim C4. -/

/-- C4 (amended): for every config with no fixed quantity set and a
nonzero quantity_percentage set, quantity resolution proceeds as:
(a) call fetch_balance (exactly one balance call) and read the quote
currency, the second component of the symbol, failing with HTTP 400
"No balance found for ..." when that currency is absent from the balance
response; (b) take the current price to be the alert-supplied price when
it is present and nonzero (Python truthiness), otherwise the ticker's
last price; (c) when the resulting quantity is nonzero, return
quantity = (available quote balance * quantity_percentage / 100) /
current_price. -/
theorem c4_percentage_path (cfg : AlertConfig) (ap : Option ℚ)
    (client : ExchangeClient) (p : ℚ) (bal : List (String × ℚ)) (qc : String)
    (last cp : ℚ)
    (hqty : cfg.quantity = none)
    (hpct : cfg.quantity_percentage = some p) (hp : p ≠ 0)
    (hbal : client.fetch_balance = .ok bal)
    (hqc : quoteCurrency cfg.symbol = some qc)
    (htick : client.fetch_ticker cfg.symbol = .ok last)
    (hcp : cp = (match ap with | some a => if a = 0 then last else a | none => last))
    (hcpz : cp ≠ 0) :
    (resolveQuantity cfg ap client).balanceCalls = 1
    ∧ (lookupBal bal qc = none →
        (resolveQuantity cfg ap client).result
          = .error (.http 400 ("No balance found for " ++ qc)))
    ∧ (∀ b, lookupBal bal qc = some b → b * p / 100 / cp ≠ 0 →
        (resolveQuantity cfg ap client).result = .ok (b * p / 100 / cp)) := by
  have h1 : truthyQ cfg.quantity = false := by rw [hqty]; rfl
  rw [resolveQuantity_pctBranch cfg ap client p h1 hpct hp, hbal, hqc]
  have hcp2 : ∀ b : ℚ,
      (if truthyQ ap then finishPct b p (ap.getD 0) 0
       else
         match client.fetch_ticker cfg.symbol with
         | .error m => (⟨.error (.exc m), 1, 1⟩ : ResolveOut)
         | .ok last2 => finishPct b p last2 1)
      = finishPct b p cp (if truthyQ ap then 0 else 1) := by
    intro b
    rcases ap with _ | a
    · simp [truthyQ, htick, hcp]
    · by_cases ha : a = 0
      · simp [truthyQ, ha, htick, hcp]
      · simp [truthyQ, ha, hcp]
  refine ⟨?_, ?_, ?_⟩
  · rcases hlb : lookupBal bal qc with _ | b
    · simp [hlb]
    · simp [hlb, hcp2, finishPct_balanceCalls]
  · intro hlb
    simp [hlb]
  · intro b hlb hnz
    simp only [hlb, hcp2]
    simp [finishPct, hcpz, hnz]

/-- Witness for C4 at the specification's own example: free balance 1000
USDT, percentage 10, no alert price, ticker last 50000 give quantity
(1000*10/100)/50000 = 0.002. -/
theorem c4_witness :
    (resolveQuantity pctCfg none stdClient).result = .ok (1000 * 10 / 100 / 50000)
    ∧ (1000 * 10 / 100 / 50000 : ℚ) = 1 / 500 := by
  refine ⟨?_, by norm_num⟩
  exact (c4_percentage_path pctCfg none stdClient 10 [("USDT", 1000)] "USDT" 50000 50000
    rfl rfl (by norm_num) rfl (by decide) rfl rfl (by norm_num)).2.2 1000
    (by decide) (by norm_num)

/-! Claim C6. -/

/-- C6: for every config whose quantity field is set and positive,
quantity resolution returns exactly that value and performs no balance
or ticker calls. -/
theorem c6_fixed_quantity (cfg : AlertConfig) (ap : Option ℚ)
    (client : ExchangeClient) (q : ℚ)
    (hq : cfg.quantity = some q) (hpos : 0 < q) :
    resolveQuantity cfg ap client = ⟨.ok q, 0, 0⟩ := by
  have hne : q ≠ 0 := ne_of_gt hpos
  simp [resolveQuantity, hq, truthyQ, hne]

/-- Witness for C6 at a concrete input: quantity 2 is returned directly,
with zero balance and ticker calls. -/
theorem c6_witness : resolveQuantity stdCfg none stdClient = ⟨.ok 2, 0, 0⟩ :=
  c6_fixed_quantity stdCfg none stdClient 2 rfl (by norm_num)

/-! Claim C9. -/

/-- C9: when the client cache holds an entry for (user_id, exchange_name),
`get_exchange_client` returns it with the state unchanged (in particular
without consulting the credential vault); on a cache miss a successful
call constructs exactly one new client, stores it in the cache under that
key, and consults the vault once; and a second successful call with the
same arguments returns the identical handle and leaves the state (hence
the construction count) unchanged. -/
theorem c9_client_cache (vault : String → String → Option Creds)
    (cerr : String → Creds → Option String) (st : GatewayState) (uid ex : String) :
    (∀ cl, lookupCache st.cache (uid ++ ":" ++ ex) = some cl →
      getExchangeClient vault cerr st uid ex = .ok (cl, st))
    ∧ (∀ cl st1, lookupCache st.cache (uid ++ ":" ++ ex) = none →
        getExchangeClient vault cerr st uid ex = .ok (cl, st1) →
        lookupCache st1.cache (uid ++ ":" ++ ex) = some cl
        ∧ st1.constructions = st.constructions + 1
        ∧ st1.vaultCalls = st.vaultCalls + 1)
    ∧ (∀ cl st1, getExchangeClient vault cerr st uid ex = .ok (cl, st1) →
        getExchangeClient vault cerr st1 uid ex = .ok (cl, st1)) := by
  refine ⟨?_, ?_, ?_⟩
  · intro cl hcl
    simp [getExchangeClient, hcl]
  · intro cl st1 hmiss h
    simp only [getExchangeClient, hmiss] at h
    split at h
    next => simp at h
    next creds hv =>
      split at h
      next => simp at h
      next hce =>
        simp only [Except.ok.injEq, Prod.mk.injEq] at h
        obtain ⟨h1, h2⟩ := h
        subst h1; subst h2
        refine ⟨?_, rfl, rfl⟩
        simp [lookupCache, List.find?]
  · intro cl st1 h
    exact getExchangeClient_stable vault cerr st uid ex cl st1 h

/-- Witness for C9 at concrete inputs: from the empty cache, a first call
constructs client 0 and caches it, and a second call returns the same
handle with the state unchanged. -/
theorem c9_witness :
    getExchangeClient stdVault noConstructErr gw0 "u1" "binance"
      = .ok (0, ⟨[("u1:binance", 0)], 1, 1, 1⟩)
    ∧ getExchangeClient stdVault noConstructErr ⟨[("u1:binance", 0)], 1, 1, 1⟩ "u1" "binance"
      = .ok (0, ⟨[("u1:binance", 0)], 1, 1, 1⟩) := by
  refine ⟨by decide, ?_⟩
  exact (c9_client_cache stdVault noConstructErr gw0 "u1" "binance").2.2 0
    ⟨[("u1:binance", 0)], 1, 1, 1⟩ (by decide)

/-! Claim C1. -/

/-- C1 (amended): a failure inside the pipeline's steps 2-4 that surfaces
as a generic (non-HTTP) exception is converted at the boundary into an
`OrderResult` with success=false and an error message, after a failure
history record is written for the alert's user; a failure raised as an
`HTTPException` is instead re-raised, reaching the webhook caller as a
transport-level error, with no history record written. -/
theorem c1_boundary (cs : String → String → Option AlertConfig)
    (vault : String → String → Option Creds) (cerr : String → Creds → Option String)
    (envOf : Nat → ExchangeClient) (gw : GatewayState) (hist : HistoryStore)
    (now : String) (alert : TradingViewAlert) :
    (∀ m, (processInner cs vault cerr envOf gw hist now alert).res = .error (.exc m) →
      (process cs vault cerr envOf gw hist now alert).response
          = .ok ⟨false, none, some ("Error executing order: " ++ m), none, now⟩
        ∧ (process cs vault cerr envOf gw hist now alert).history
          = saveHist (processInner cs vault cerr envOf gw hist now alert).hist
              alert.user_id now
              (failureRecord alert.config_name now ("Error executing order: " ++ m)))
    ∧ (∀ s d, (processInner cs vault cerr envOf gw hist now alert).res = .error (.http s d) →
        (process cs vault cerr envOf gw hist now alert).response = .error (s, d)
        ∧ (process cs vault cerr envOf gw hist now alert).history
          = (processInner cs vault cerr envOf gw hist now alert).hist) := by
  constructor
  · intro m h
    constructor <;> simp [process, h]
  · intro s d h
    constructor <;> simp [process, h]

/-- Witness for C1 at a concrete input: a `create_order` call that raises
a generic exception is converted into a success=false result and a
failure history record. -/
theorem c1_witness :
    (process (fun _ _ => some stdCfg) stdVault noConstructErr (fun _ => errClient)
        gw0 [] "t0" alert0).response
      = .ok ⟨false, none, some "Error executing order: network down", none, "t0"⟩
    ∧ (process (fun _ _ => some stdCfg) stdVault noConstructErr (fun _ => errClient)
        gw0 [] "t0" alert0).history
      = [(("u1", "t0"), failureRecord "c1" "t0" "Error executing order: network down")] :=
  (c1_boundary (fun _ _ => some stdCfg) stdVault noConstructErr (fun _ => errClient)
    gw0 [] "t0" alert0).1 "network down" (by decide)

/-- Counterexample to C1 as stated: an alert whose processing fails
during client acquisition (no stored credentials) is answered with a
transport-level HTTP 404 error, not with a success=false `OrderResult`,
and no failure history record is written. -/
theorem c1_counterexample :
    (process (fun _ _ => some stdCfg) (fun _ _ => none) noConstructErr (fun _ => stdClient)
        gw0 [] "t0" alert0).response
      = .error (404, "API keys not found for exchange binance")
    ∧ (process (fun _ _ => some stdCfg) (fun _ _ => none) noConstructErr (fun _ => stdClient)
        gw0 [] "t0" alert0).history = [] := by
  decide

/-! Claim C2. -/

/-- C2 (amended): for every incoming alert whose config_name has no
stored configuration for alert.user_id, the webhook raises an HTTP 404
error whose detail references the missing configuration; no
`OrderResult` is returned and no history record is written. -/
theorem c2_missing_config (cs : String → String → Option AlertConfig)
    (vault : String → String → Option Creds) (cerr : String → Creds → Option String)
    (envOf : Nat → ExchangeClient) (gw : GatewayState) (hist : HistoryStore)
    (now : String) (alert : TradingViewAlert)
    (h : cs alert.user_id alert.config_name = none) :
    (process cs vault cerr envOf gw hist now alert).response
      = .error (404, "Configuration \x27" ++ alert.config_name ++ "\x27 not found")
    ∧ (process cs vault cerr envOf gw hist now alert).history = hist := by
  constructor <;> simp [process, processInner, h]

/-- Witness for C2 at a concrete input. -/
theorem c2_witness :
    (process (fun _ _ => none) stdVault noConstructErr (fun _ => stdClient)
        gw0 [] "t1" ⟨"missing", "u2", some 5⟩).response
      = .error (404, "Configuration \x27missing\x27 not found")
    ∧ (process (fun _ _ => none) stdVault noConstructErr (fun _ => stdClient)
        gw0 [] "t1" ⟨"missing", "u2", some 5⟩).history = [] :=
  c2_missing_config (fun _ _ => none) stdVault noConstructErr (fun _ => stdClient)
    gw0 [] "t1" ⟨"missing", "u2", some 5⟩ rfl

/-- Counterexample to C2 as stated: with an unknown config_name the
response is a transport-level HTTP 404 error (so no success=false
`OrderResult` is returned) and the history store stays empty (no failure
record is written). -/
theorem c2_counterexample :
    (process (fun _ _ => none) stdVault noConstructErr (fun _ => stdClient)
        gw0 [] "t0" alert0).response
      = .error (404, "Configuration \x27c1\x27 not found")
    ∧ (process (fun _ _ => none) stdVault noConstructErr (fun _ => stdClient)
        gw0 [] "t0" alert0).history = [] := by
  decide

/-! Claim C3. -/

/-- C3: evaluation of the pipeline at the failing input, a stored
configuration whose order_type "trailing_stop" is outside the recognized
set: no `create_order` call is made, yet the pipeline returns
success=true with message "Order executed successfully" and order_id
absent, and writes a success history record - instead of failing with an
UnsupportedOrderType error as the specification requires. -/
theorem c3_unsupported_type_eval :
    (process (fun _ _ => some c3Cfg) stdVault noConstructErr (fun _ => stdClient)
        gw0 [] "t0" alert0).response
      = .ok ⟨true, none, some "Order executed successfully", none, "t0"⟩
    ∧ (process (fun _ _ => some c3Cfg) stdVault noConstructErr (fun _ => stdClient)
        gw0 [] "t0" alert0).placedOrders = []
    ∧ lookupHist (process (fun _ _ => some c3Cfg) stdVault noConstructErr (fun _ => stdClient)
        gw0 [] "t0" alert0).history "u1" "t0"
      = some ⟨"c1", some "BTC/USDT", some "buy", some 2, none, "t0", true, none, none, none⟩ := by
  decide

/-! Counterexamples for claims C4, C5, C7. -/

/-- Counterexample to C4 as stated: with free balance 1000 USDT,
percentage 10, ticker last price 50000 and an alert-supplied price of -1
(present but not positive), the code uses the alert price (Python
truthiness accepts any nonzero value), yielding quantity -100, not the
ticker-priced quantity (1000*10/100)/50000 the claim prescribes. -/
theorem c4_counterexample :
    (resolveQuantity pctCfg (some (-1)) stdClient).result = .ok (-100)
    ∧ ((-100 : ℚ) ≠ 1000 * 10 / 100 / 50000) := by
  constructor
  · have hqc : quoteCurrency "BTC/USDT" = some "USDT" := by decide
    have hb : lookupBal [("USDT", (1000 : ℚ))] "USDT" = some 1000 := by decide
    norm_num [resolveQuantity, pctCfg, stdClient, truthyQ, finishPct, hqc, hb]
  · norm_num

/-- Counterexample to C5 as stated: for a limit order with an
alert-supplied price of 0 (present) and a config-stored price of 100,
the dispatched order uses the config price 100, not the alert-supplied
price: Python truthiness treats the present price 0 as absent. -/
theorem c5_counterexample :
    (dispatchOrder stdClient "BTC/USDT" "limit" "buy" 1 (some 0) (some 100)).attempts
      = [⟨"BTC/USDT", "limit", "buy", 1, some 100, none⟩]
    ∧ some (100 : ℚ) ≠ some (0 : ℚ) := by
  constructor <;> decide

/-! Claim C5. -/

/-- C5 (amended): for order_type in the set containing limit, stop_loss
and take_profit, the price used for the dispatched order is the
alert-supplied price when it is present and nonzero, otherwise the
config-stored price when that is present and nonzero; when no nonzero
price is available the dispatch fails with HTTP 400 "Price required for
... orders" and no order is attempted.  A market dispatch never requires
a price: it attempts the order with no price whatever the alert or
config prices are. -/
theorem c5_price_resolution (client : ExchangeClient) (sym sd : String) (q : ℚ)
    (ap cp : Option ℚ) (ot : String) :
    ((ot = "limit" ∨ ot = "stop_loss" ∨ ot = "take_profit") →
      (truthyQ ap = false → truthyQ cp = false →
        dispatchOrder client sym ot sd q ap cp
          = ⟨.error (.http 400 ("Price required for " ++ ot ++ " orders")), []⟩)
      ∧ (∀ a, ap = some a → a ≠ 0 →
          (dispatchOrder client sym ot sd q ap cp).attempts
            = [⟨sym, if ot = "limit" then "limit" else "stop", sd, q, some a,
                if ot = "limit" then none else some a⟩])
      ∧ (truthyQ ap = false → ∀ c, cp = some c → c ≠ 0 →
          (dispatchOrder client sym ot sd q ap cp).attempts
            = [⟨sym, if ot = "limit" then "limit" else "stop", sd, q, some c,
                if ot = "limit" then none else some c⟩]))
    ∧ (dispatchOrder client sym "market" sd q ap cp).attempts
        = [⟨sym, "market", sd, q, none, none⟩] := by
  constructor
  · intro hot
    refine ⟨?_, ?_, ?_⟩
    · intro hta htc
      rcases hot with h | h | h <;> subst h <;>
        simp [dispatchOrder, resolvedPrice, hta, htc]
    · intro a ha hne
      subst ha
      have hta : truthyQ (some a) = true := by simp [truthyQ, hne]
      rcases hot with h | h | h <;> subst h <;>
        simp [dispatchOrder, resolvedPrice, hta, tryCreate_attempts]
    · intro hta c hc hcne
      subst hc
      have htc : truthyQ (some c) = true := by simp [truthyQ, hcne]
      rcases hot with h | h | h <;> subst h <;>
        simp [dispatchOrder, resolvedPrice, hta, htc, tryCreate_attempts]
  · simp [dispatchOrder, tryCreate_attempts]

/-- Witness for C5 at concrete inputs: a limit order with no price
anywhere fails with "Price required for limit orders" before any
`create_order` call. -/
theorem c5_witness :
    dispatchOrder stdClient "BTC/USDT" "limit" "buy" 1 none none
      = ⟨.error (.http 400 "Price required for limit orders"), []⟩ :=
  ((c5_price_resolution stdClient "BTC/USDT" "buy" 1 none none "limit").1
    (Or.inl rfl)).1 rfl rfl

/-- Counterexample to C7 as stated: a config with fixed quantity -5 (the
pydantic model does not constrain the field) makes quantity resolution
return -5, a negative quantity, to the dispatch step; the
`if not quantity:` guard only rejects falsy (zero/None) quantities. -/
theorem c7_counterexample :
    (resolveQuantity negCfg none stdClient).result = .ok (-5) ∧ ¬ (0 < (-5 : ℚ)) := by
  constructor <;> decide

/-- Outcome of the percentage tail: it returns only nonzero quantities,
and it fails exactly when the current price is zero or the computed
quantity is zero. -/
theorem finishPct_result (f p c : ℚ) (t : Nat) :
    (∀ q, (finishPct f p c t).result = .ok q → q ≠ 0)
    ∧ ((∃ e, (finishPct f p c t).result = .error e) ↔ (c = 0 ∨ f * p / 100 / c = 0)) := by
  by_cases h : c = 0
  · constructor
    · intro q hq
      simp [finishPct, h] at hq
    · simp [finishPct, h]
  · by_cases h2 : f * p / 100 / c = 0
    · constructor
      · intro q hq
        simp [finishPct, h, h2] at hq
      · simp [finishPct, h, h2]
    · constructor
      · intro q hq
        simp only [finishPct, if_neg h] at hq
        rw [if_neg h2] at hq
        simp only [Except.ok.injEq] at hq
        rw [← hq]; exact h2
      · constructor
        · rintro ⟨e, he⟩
          simp [finishPct, h, h2] at he
        · rintro (hc | hq2)
          · exact absurd hc h
          · exact absurd hq2 h2

/-- The two failure shapes of the spec-side percentage value coincide
with "price is zero or computed quantity is zero". -/
theorem specLeaf (cp v : ℚ) :
    ((if cp = 0 then (none : Option ℚ) else some v) = none
      ∨ (if cp = 0 then (none : Option ℚ) else some v) = some 0)
    ↔ (cp = 0 ∨ v = 0) := by
  by_cases h : cp = 0 <;> simp [h]

/-! Claim C7. -/

/-- C7 (amended): for every config and alert, quantity resolution either
returns a nonzero quantity or fails (with QuantityUndetermined or the
underlying error); it never yields a zero quantity to the dispatch step,
and it fails exactly when neither the fixed quantity nor a resolvable
percentage yields a nonzero number. -/
theorem c7_quantity_nonzero (cfg : AlertConfig) (ap : Option ℚ) (client : ExchangeClient) :
    (∀ q, (resolveQuantity cfg ap client).result = .ok q → q ≠ 0)
    ∧ ((∃ e, (resolveQuantity cfg ap client).result = .error e)
        ↔ specFixedQuantity cfg = none
          ∧ (specPctQuantity cfg ap client = none ∨ specPctQuantity cfg ap client = some 0)) := by
  by_cases hfx : truthyQ cfg.quantity = true
  · rcases hqv : cfg.quantity with _ | q
    · rw [hqv] at hfx; simp [truthyQ] at hfx
    · have hq0 : q ≠ 0 := by
        rw [hqv] at hfx; simpa [truthyQ] using hfx
      have hres : resolveQuantity cfg ap client = ⟨.ok q, 0, 0⟩ := by
        simp [resolveQuantity, hqv, truthyQ, hq0]
      constructor
      · intro q1 h1
        rw [hres] at h1
        simp only [Except.ok.injEq] at h1
        rw [← h1]; exact hq0
      · rw [hres]
        simp [specFixedQuantity, hqv, hq0]
  · have hfx2 : truthyQ cfg.quantity = false := by
      revert hfx; cases truthyQ cfg.quantity <;> simp
    have hfix_none : specFixedQuantity cfg = none := by
      rcases hqv : cfg.quantity with _ | q
      · simp [specFixedQuantity, hqv]
      · rw [hqv] at hfx2
        simp only [truthyQ, bne_eq_false_iff_eq] at hfx2
        simp [specFixedQuantity, hqv, hfx2]
    by_cases hpc : truthyQ cfg.quantity_percentage = true
    · rcases hpv : cfg.quantity_percentage with _ | p
      · rw [hpv] at hpc; simp [truthyQ] at hpc
      · have hp : p ≠ 0 := by
          rw [hpv] at hpc; simpa [truthyQ] using hpc
        rw [resolveQuantity_pctBranch cfg ap client p hfx2 hpv hp]
        have hspec : specPctQuantity cfg ap client
            = match client.fetch_balance with
              | .error _ => none
              | .ok bal =>
                match quoteCurrency cfg.symbol with
                | none => none
                | some qc =>
                  match lookupBal bal qc with
                  | none => none
                  | some free =>
                    match (if truthyQ ap then Except.ok (ap.getD 0)
                           else client.fetch_ticker cfg.symbol) with
                    | .error _ => none
                    | .ok cp => if cp = 0 then none else some (free * p / 100 / cp) := by
          simp [specPctQuantity, hpv, hp]
        rw [hspec]
        simp only [hfix_none, eq_self_iff_true, true_and]
        rcases hfb : client.fetch_balance with m | bal
        · simp [hfb]
        · simp only [hfb]
          rcases hqc2 : quoteCurrency cfg.symbol with _ | qc
          · simp [hqc2]
          · simp only [hqc2]
            rcases hlb : lookupBal bal qc with _ | free
            · simp [hlb]
            · simp only [hlb]
              by_cases hta : truthyQ ap = true
              · rw [if_pos hta, if_pos hta]
                refine ⟨(finishPct_result free p (ap.getD 0) 0).1, ?_⟩
                have hm : (match (Except.ok (ap.getD 0) : Except String ℚ) with
                    | .error _ => (none : Option ℚ)
                    | .ok cp => if cp = 0 then none else some (free * p / 100 / cp))
                    = if ap.getD 0 = 0 then (none : Option ℚ)
                      else some (free * p / 100 / ap.getD 0) := rfl
                rw [hm, specLeaf]
                exact (finishPct_result free p (ap.getD 0) 0).2
              · rw [if_neg hta, if_neg hta]
                rcases htk : client.fetch_ticker cfg.symbol with m2 | last
                · simp [htk]
                · simp only [htk]
                  refine ⟨(finishPct_result free p last 1).1, ?_⟩
                  rw [specLeaf]
                  exact (finishPct_result free p last 1).2
    · have hpc2 : truthyQ cfg.quantity_percentage = false := by
        revert hpc; cases truthyQ cfg.quantity_percentage <;> simp
      have hres : resolveQuantity cfg ap client
          = ⟨.error (.http 400 "Could not determine order quantity"), 0, 0⟩ := by
        simp [resolveQuantity, hfx2, hpc2]
      have hpct_none : specPctQuantity cfg ap client = none := by
        rcases hpv : cfg.quantity_percentage with _ | p
        · simp [specPctQuantity, hpv]
        · rw [hpv] at hpc2
          simp only [truthyQ, bne_eq_false_iff_eq] at hpc2
          simp [specPctQuantity, hpv, hpc2]
      constructor
      · intro q h; rw [hres] at h; simp at h
      · rw [hres]
        simp [hfix_none, hpct_none]

/-- Witness for C7 at a concrete input: with neither quantity nor
percentage set, resolution fails. -/
theorem c7_witness :
    ∃ e, (resolveQuantity emptyQtyCfg none stdClient).result = .error e :=
  (c7_quantity_nonzero emptyQtyCfg none stdClient).2.mpr ⟨rfl, Or.inl rfl⟩

/-! Claim C8. -/

/-- C8: processing two identical alerts back-to-back (with the distinct
`datetime.now()` readings t1 and t2 that the timestamp-keyed history
store presupposes) produces two independent order placements - each
invocation makes its own `create_order` call, nothing is suppressed -
and two independent history records: after both invocations the history
store holds the record of each, keyed by its own timestamp.  Nothing is
deduplicated. -/
theorem c8_no_dedup (cs : String → String → Option AlertConfig)
    (vault : String → String → Option Creds) (cerr : String → Creds → Option String)
    (envOf : Nat → ExchangeClient) (gw : GatewayState) (hist : HistoryStore)
    (t1 t2 : String) (alert : TradingViewAlert) (cfg : AlertConfig)
    (cl : Nat) (gw1 : GatewayState) (q : ℚ) (rcpt : Receipt)
    (hcfg : cs alert.user_id alert.config_name = some cfg)
    (hot : cfg.order_type = "market")
    (hcl : getExchangeClient vault cerr gw alert.user_id cfg.exchange = .ok (cl, gw1))
    (hq : (resolveQuantity cfg alert.price (envOf cl)).result = .ok q)
    (hord : (envOf cl).create_order (marketReq cfg q) = .ok rcpt)
    (ht : t1 ≠ t2) :
    (process cs vault cerr envOf gw hist t1 alert).placedOrders = [marketReq cfg q]
    ∧ (process cs vault cerr envOf
        (process cs vault cerr envOf gw hist t1 alert).gateway
        (process cs vault cerr envOf gw hist t1 alert).history t2 alert).placedOrders
      = [marketReq cfg q]
    ∧ lookupHist (process cs vault cerr envOf
        (process cs vault cerr envOf gw hist t1 alert).gateway
        (process cs vault cerr envOf gw hist t1 alert).history t2 alert).history
        alert.user_id t1 = some (successRec alert cfg q rcpt t1)
    ∧ lookupHist (process cs vault cerr envOf
        (process cs vault cerr envOf gw hist t1 alert).gateway
        (process cs vault cerr envOf gw hist t1 alert).history t2 alert).history
        alert.user_id t2 = some (successRec alert cfg q rcpt t2) := by
  unfold marketReq at hord
  have hdp : dispatchOrder (envOf cl) cfg.symbol cfg.order_type
      (if cfg.position_side = "long" then "buy" else "sell") q alert.price cfg.price
      = ⟨.ok (some rcpt), [marketReq cfg q]⟩ := by
    simp [dispatchOrder, hot, tryCreate, hord, marketReq]
  have hPI1 : processInner cs vault cerr envOf gw hist t1 alert
      = ⟨.ok ⟨true, rcpt.id, some "Order executed successfully", some rcpt, t1⟩,
         saveHist hist alert.user_id t1 (successRec alert cfg q rcpt t1),
         gw1,
         (resolveQuantity cfg alert.price (envOf cl)).balanceCalls,
         (resolveQuantity cfg alert.price (envOf cl)).tickerCalls,
         [marketReq cfg q]⟩ := by
    simp [processInner, hcfg, hcl, hq, hdp, successRec]
  have hp1 : process cs vault cerr envOf gw hist t1 alert
      = ⟨.ok ⟨true, rcpt.id, some "Order executed successfully", some rcpt, t1⟩,
         saveHist hist alert.user_id t1 (successRec alert cfg q rcpt t1),
         gw1,
         (resolveQuantity cfg alert.price (envOf cl)).balanceCalls,
         (resolveQuantity cfg alert.price (envOf cl)).tickerCalls,
         [marketReq cfg q]⟩ := by
    simp [process, hPI1]
  have hcl2 : getExchangeClient vault cerr gw1 alert.user_id cfg.exchange = .ok (cl, gw1) :=
    getExchangeClient_stable vault cerr gw alert.user_id cfg.exchange cl gw1 hcl
  have hPI2 : processInner cs vault cerr envOf gw1
      (saveHist hist alert.user_id t1 (successRec alert cfg q rcpt t1)) t2 alert
      = ⟨.ok ⟨true, rcpt.id, some "Order executed successfully", some rcpt, t2⟩,
         saveHist (saveHist hist alert.user_id t1 (successRec alert cfg q rcpt t1))
           alert.user_id t2 (successRec alert cfg q rcpt t2),
         gw1,
         (resolveQuantity cfg alert.price (envOf cl)).balanceCalls,
         (resolveQuantity cfg alert.price (envOf cl)).tickerCalls,
         [marketReq cfg q]⟩ := by
    simp [processInner, hcfg, hcl2, hq, hdp, successRec]
  have hp2 : process cs vault cerr envOf gw1
      (saveHist hist alert.user_id t1 (successRec alert cfg q rcpt t1)) t2 alert
      = ⟨.ok ⟨true, rcpt.id, some "Order executed successfully", some rcpt, t2⟩,
         saveHist (saveHist hist alert.user_id t1 (successRec alert cfg q rcpt t1))
           alert.user_id t2 (successRec alert cfg q rcpt t2),
         gw1,
         (resolveQuantity cfg alert.price (envOf cl)).balanceCalls,
         (resolveQuantity cfg alert.price (envOf cl)).tickerCalls,
         [marketReq cfg q]⟩ := by
    simp [process, hPI2]
  have hbe : (t2 == t1) = false := beq_eq_false_iff_ne.mpr (Ne.symm ht)
  simp only [hp1, hp2]
  refine ⟨trivial, trivial, ?_, ?_⟩
  · simp [lookupHist, saveHist, List.find?, hbe]
  · simp [lookupHist, saveHist, List.find?]

/-- Witness for C8 at concrete inputs: the same alert processed at
timestamps t1 then t2 places two market orders and leaves both history
records retrievable. -/
theorem c8_witness :
    (process (fun _ _ => some stdCfg) stdVault noConstructErr (fun _ => stdClient)
        gw0 [] "t1" alert0).placedOrders = [marketReq stdCfg 2]
    ∧ (process (fun _ _ => some stdCfg) stdVault noConstructErr (fun _ => stdClient)
        (process (fun _ _ => some stdCfg) stdVault noConstructErr (fun _ => stdClient)
          gw0 [] "t1" alert0).gateway
        (process (fun _ _ => some stdCfg) stdVault noConstructErr (fun _ => stdClient)
          gw0 [] "t1" alert0).history "t2" alert0).placedOrders = [marketReq stdCfg 2]
    ∧ lookupHist (process (fun _ _ => some stdCfg) stdVault noConstructErr (fun _ => stdClient)
        (process (fun _ _ => some stdCfg) stdVault noConstructErr (fun _ => stdClient)
          gw0 [] "t1" alert0).gateway
        (process (fun _ _ => some stdCfg) stdVault noConstructErr (fun _ => stdClient)
          gw0 [] "t1" alert0).history "t2" alert0).history "u1" "t1"
      = some (successRec alert0 stdCfg 2 ⟨some "oid-1"⟩ "t1")
    ∧ lookupHist (process (fun _ _ => some stdCfg) stdVault noConstructErr (fun _ => stdClient)
        (process (fun _ _ => some stdCfg) stdVault noConstructErr (fun _ => stdClient)
          gw0 [] "t1" alert0).gateway
        (process (fun _ _ => some stdCfg) stdVault noConstructErr (fun _ => stdClient)
          gw0 [] "t1" alert0).history "t2" alert0).history "u1" "t2"
      = some (successRec alert0 stdCfg 2 ⟨some "oid-1"⟩ "t2") :=
  c8_no_dedup (fun _ _ => some stdCfg) stdVault noConstructErr (fun _ => stdClient)
    gw0 [] "t1" "t2" alert0 stdCfg 0 ⟨[("u1:binance", 0)], 1, 1, 1⟩ 2 ⟨some "oid-1"⟩
    rfl rfl (by decide) (by decide) rfl (by decide)

/-! Claim C10. -/

/-- When the body of the `try:` block completes (returns an
`OrderResult`), that result has success=true and the history store was
extended with a success record whose price field is the alert-supplied
price. -/
theorem processInner_ok_hist (cs : String → String → Option AlertConfig)
    (vault : String → String → Option Creds) (cerr : String → Creds → Option String)
    (envOf : Nat → ExchangeClient) (gw : GatewayState) (hist : HistoryStore)
    (now : String) (alert : TradingViewAlert) (r0 : OrderResult)
    (h : (processInner cs vault cerr envOf gw hist now alert).res = .ok r0) :
    r0.success = true
    ∧ ∃ sym sd q oid det,
        (processInner cs vault cerr envOf gw hist now alert).hist
          = saveHist hist alert.user_id now
              ⟨alert.config_name, some sym, some sd, some q, alert.price,
                now, true, oid, none, det⟩ := by
  cases hc : cs alert.user_id alert.config_name with
  | none => simp [processInner, hc] at h
  | some cfg =>
    cases hcl : getExchangeClient vault cerr gw alert.user_id cfg.exchange with
    | error e => simp [processInner, hc, hcl] at h
    | ok pr =>
      obtain ⟨cl, gw1⟩ := pr
      cases hq : (resolveQuantity cfg alert.price (envOf cl)).result with
      | error e => simp [processInner, hc, hcl, hq] at h
      | ok q =>
        cases hdp : (dispatchOrder (envOf cl) cfg.symbol cfg.order_type
            (if cfg.position_side = "long" then "buy" else "sell")
            q alert.price cfg.price).result with
        | error e => simp [processInner, hc, hcl, hq, hdp] at h
        | ok orcpt =>
          simp only [processInner, hc, hcl, hq, hdp, Except.ok.injEq] at h
          subst h
          cases orcpt with
          | none =>
            exact ⟨rfl, cfg.symbol, (if cfg.position_side = "long" then "buy" else "sell"), q,
              none, none, by simp [processInner, hc, hcl, hq, hdp]⟩
          | some rc =>
            exact ⟨rfl, cfg.symbol, (if cfg.position_side = "long" then "buy" else "sell"), q,
              rc.id, some rc, by simp [processInner, hc, hcl, hq, hdp]⟩

/-- C10: whenever the webhook returns a success `OrderResult`, the
history record written for (user_id, now) carries price = alert.price,
the alert-supplied price (absent when the alert carries none) - even
when the order itself was placed at the config-stored price. -/
theorem c10_history_price (cs : String → String → Option AlertConfig)
    (vault : String → String → Option Creds) (cerr : String → Creds → Option String)
    (envOf : Nat → ExchangeClient) (gw : GatewayState) (hist : HistoryStore)
    (now : String) (alert : TradingViewAlert) (r : OrderResult)
    (hr : (process cs vault cerr envOf gw hist now alert).response = .ok r)
    (hs : r.success = true) :
    ∃ hrec, lookupHist (process cs vault cerr envOf gw hist now alert).history
        alert.user_id now = some hrec
      ∧ hrec.price = alert.price ∧ hrec.success = true := by
  cases hres : (processInner cs vault cerr envOf gw hist now alert).res with
  | error e =>
    cases e with
    | http s d => simp [process, hres] at hr
    | exc m =>
      simp only [process, hres] at hr
      simp only [Except.ok.injEq] at hr
      rw [← hr] at hs
      simp at hs
  | ok r0 =>
    obtain ⟨hsucc, sym, sd, q, oid, det, hhist⟩ :=
      processInner_ok_hist cs vault cerr envOf gw hist now alert r0 hres
    refine ⟨⟨alert.config_name, some sym, some sd, some q, alert.price,
      now, true, oid, none, det⟩, ?_, rfl, rfl⟩
    have hph : (process cs vault cerr envOf gw hist now alert).history
        = (processInner cs vault cerr envOf gw hist now alert).hist := by
      simp [process, hres]
    rw [hph, hhist]
    simp [lookupHist, saveHist, List.find?]

/-- Witness for C10 at a concrete input: a limit order with no
alert-supplied price is placed at the config-stored price 100, yet the
written history record carries price = none. -/
theorem c10_witness :
    (process (fun _ _ => some limitCfg) stdVault noConstructErr (fun _ => stdClient)
        gw0 [] "t0" alert0).placedOrders
      = [⟨"BTC/USDT", "limit", "buy", 2, some 100, none⟩]
    ∧ ∃ hrec, lookupHist (process (fun _ _ => some limitCfg) stdVault noConstructErr
        (fun _ => stdClient) gw0 [] "t0" alert0).history "u1" "t0" = some hrec
      ∧ hrec.price = none ∧ hrec.success = true :=
  ⟨by decide,
    c10_history_price (fun _ _ => some limitCfg) stdVault noConstructErr (fun _ => stdClient)
      gw0 [] "t0" alert0
      ⟨true, some "oid-1", some "Order executed successfully", some ⟨some "oid-1"⟩, "t0"⟩
      (by decide) rfl⟩

end Bridge
